import Mathlib

/-!
Shallow embedding of src/scripts/main.js: an image source toggle bound to
a click handler, and a name-greeting routine (setUserName) that prompts
for a name, persists it in localStorage under the key "name", and renders
a greeting into a heading element.  Page-load initialization either reads
the stored name or prompts for one; a button re-triggers the prompt.

The prompt is modelled as a response stream resp : Nat -> Option String,
where none models the user declining (the JS prompt returning null) and
some s models the user entering the string s.  Since setUserName recurses
without bound when every response is falsy, it is embedded with explicit
fuel; divergence is the statement that every fuel amount yields none.

Runs are recorded as event traces (prompt invocations, store writes,
heading writes) so that claims about write counts and write order can be
stated; the final DOM and store state is obtained by folding the trace
over an initial state.
-/

namespace MainJs

/-- The default image source string from main.js. -/
def defaultSrc : String := "images/user-image.png"

/-- The alternate image source string from main.js. -/
def alternateSrc : String := "https://i5.walmartimages.com/asr/87061092-70de-4a9b-ae77-b0f20a9c54d5_1.520c5864c2391e9f24041a1faa3d5d3a.jpeg?odnWidth=612&odnHeight=612&odnBg=ffffff"

/-- The body of myImage.onclick: inspect the current src attribute and
swap it.  The handler reads the attribute, compares it to the default
value with strict string equality, and writes the other constant. -/
def imageClick (mySrc : String) : String :=
  if mySrc = defaultSrc then alternateSrc else defaultSrc

/-- Iterated clicks on the image. -/
def imageClicks : Nat → String → String
  | 0, src => src
  | n + 1, src => imageClick (imageClicks n src)

/-- JavaScript string coercion of a prompt result: null coerces to the
string "null" both in localStorage.setItem and in string concatenation. -/
def jsToString : Option String → String
  | some s => s
  | none => "null"

/-- JavaScript falsiness of a prompt result, as tested by !myName:
null is falsy and the empty string is falsy; every other string is
truthy. -/
def falsy : Option String → Bool
  | some s => s == ""
  | none => true

/-- The greeting template from main.js. -/
def greet (s : String) : String := "Welcome, " ++ s ++ "!"

/-- Observable events of a run of the script. -/
inductive Event where
  | promptCall : Event
  | storeWrite : String → Event
  | headingWrite : String → Event
deriving DecidableEq, Repr

/-- The two writes a setUserName frame performs after its if/else:
localStorage.setItem of the (coerced) prompt result, then the heading
text update.  In main.js these statements sit after the closing brace of
the else branch, so every frame performs them, not only the frame that
obtained a non-empty name. -/
def writeEvents (r : Option String) : List Event :=
  [Event.storeWrite (jsToString r), Event.headingWrite (greet (jsToString r))]

/-- Embedding of setUserName from main.js, with fuel bounding the
recursion depth and i the index of the next prompt response to consume.
Each frame prompts once; a falsy response triggers the recursive retry;
after the if/else every frame unconditionally performs its store write
and heading write.  Returns the next unconsumed response index and the
event trace, or none when the fuel is exhausted. -/
def setUserName (resp : Nat → Option String) : Nat → Nat → Option (Nat × List Event)
  | 0, _ => none
  | fuel + 1, i =>
    let myName := resp i
    if falsy myName then
      match setUserName resp fuel (i + 1) with
      | none => none
      | some (j, evs) => some (j, Event.promptCall :: (evs ++ writeEvents myName))
    else
      some (i + 1, Event.promptCall :: writeEvents myName)

/-- The mutable state the script touches: the localStorage value under
the key "name" (none when absent) and the heading text content. -/
structure PageState where
  store : Option String
  heading : String
deriving DecidableEq, Repr

/-- Effect of one event on the page state. -/
def applyEvent (st : PageState) : Event → PageState
  | Event.promptCall => st
  | Event.storeWrite v => { st with store := some v }
  | Event.headingWrite v => { st with heading := v }

/-- Effect of a trace on the page state, first event first. -/
def applyEvents (st : PageState) (evs : List Event) : PageState :=
  evs.foldl applyEvent st

/-- Embedding of the page-load initialization in main.js: when the
stored value is falsy (absent or empty) call setUserName, otherwise
read the stored name and write the greeting directly. -/
def pageLoad (st : PageState) (resp : Nat → Option String) (fuel : Nat) :
    Option (PageState × List Event) :=
  if falsy st.store then
    match setUserName resp fuel 0 with
    | none => none
    | some (_, evs) => some (applyEvents st evs, evs)
  else
    let evs := [Event.headingWrite (greet (jsToString st.store))]
    some (applyEvents st evs, evs)

/-- Embedding of myButton.onclick from main.js: call setUserName on the
current page state. -/
def buttonClick (st : PageState) (resp : Nat → Option String) (fuel : Nat) :
    Option (PageState × List Event) :=
  match setUserName resp fuel 0 with
  | none => none
  | some (_, evs) => some (applyEvents st evs, evs)

/-- Number of prompt invocations recorded in a trace. -/
def countP (evs : List Event) : Nat :=
  (evs.filter fun e => match e with | Event.promptCall => true | _ => false).length

/-- Number of store writes recorded in a trace. -/
def countS (evs : List Event) : Nat :=
  (evs.filter fun e => match e with | Event.storeWrite _ => true | _ => false).length

/-- Number of heading writes recorded in a trace. -/
def countH (evs : List Event) : Nat :=
  (evs.filter fun e => match e with | Event.headingWrite _ => true | _ => false).length

/-- The values of the heading writes of a trace, in order. -/
def headingWrites (evs : List Event) : List String :=
  evs.filterMap fun e => match e with | Event.headingWrite v => some v | _ => none

/-- The write section of a terminating setUserName run that consumed
responses i, i+1, ..., i+n: the innermost frame (response index i+n)
writes first and the outermost frame (response index i) writes last. -/
def writesBlock (resp : Nat → Option String) : Nat → Nat → List Event
  | i, 0 => writeEvents (resp i)
  | i, n + 1 => writesBlock resp (i + 1) n ++ writeEvents (resp i)

/-- Helper: with the fuel exhausted the embedding returns none. -/
lemma setUserName_zero (resp : Nat → Option String) (i : Nat) :
    setUserName resp 0 i = none := rfl

/-- Helper: unfolding one frame of setUserName. -/
lemma setUserName_succ (resp : Nat → Option String) (fuel i : Nat) :
    setUserName resp (fuel + 1) i =
      if falsy (resp i) then
        match setUserName resp fuel (i + 1) with
        | none => none
        | some (j, evs) =>
            some (j, Event.promptCall :: (evs ++ writeEvents (resp i)))
      else
        some (i + 1, Event.promptCall :: writeEvents (resp i)) := rfl

/-- Helper: when the first non-falsy response sits k positions past i,
a run with enough fuel consumes exactly k+1 responses and produces the
trace of k+1 prompts followed by the frames writing from innermost to
outermost. -/
lemma setUserName_run (resp : Nat → Option String) :
    ∀ k i fuel, (∀ j, j < k → falsy (resp (i + j)) = true) →
      falsy (resp (i + k)) = false → k + 1 ≤ fuel →
      setUserName resp fuel i =
        some (i + k + 1,
          List.replicate (k + 1) Event.promptCall ++ writesBlock resp i k) := by
  intro k
  induction k with
  | zero =>
    intro i fuel _ hk hf
    obtain ⟨f, rfl⟩ : ∃ f, fuel = f + 1 :=
      ⟨fuel - 1, (Nat.succ_pred_eq_of_pos hf).symm⟩
    rw [setUserName_succ]
    rw [Nat.add_zero] at hk
    rw [hk]
    simp [writesBlock]
  | succ k ih =>
    intro i fuel h hk hf
    obtain ⟨f, rfl⟩ : ∃ f, fuel = f + 1 :=
      ⟨fuel - 1, (Nat.succ_pred_eq_of_pos (by omega)).symm⟩
    have h0 : falsy (resp i) = true := by
      have := h 0 (Nat.succ_pos k)
      rwa [Nat.add_zero] at this
    have hrec : setUserName resp f (i + 1) =
        some (i + 1 + k + 1,
          List.replicate (k + 1) Event.promptCall ++ writesBlock resp (i + 1) k) := by
      apply ih
      · intro j hj
        have := h (j + 1) (Nat.succ_lt_succ hj)
        rwa [show i + (j + 1) = i + 1 + j by omega] at this
      · rwa [show i + 1 + k = i + (k + 1) by omega]
      · omega
    rw [setUserName_succ, h0, if_pos rfl, hrec]
    have harith : i + 1 + k + 1 = i + (k + 1) + 1 := by omega
    rw [harith]
    simp [writesBlock, List.replicate_succ, List.append_assoc]

/-- Helper: when every response is falsy, every fuel amount is
exhausted: the run never completes. -/
lemma setUserName_all_falsy (resp : Nat → Option String)
    (h : ∀ j, falsy (resp j) = true) :
    ∀ fuel i, setUserName resp fuel i = none := by
  intro fuel
  induction fuel with
  | zero => intro i; rfl
  | succ f ih =>
    intro i
    rw [setUserName_succ, h i, if_pos rfl, ih (i + 1)]

/-- Helper: filters distribute over append, stated for the counters. -/
lemma countP_append (a b : List Event) : countP (a ++ b) = countP a + countP b := by
  simp [countP, List.filter_append]

lemma countS_append (a b : List Event) : countS (a ++ b) = countS a + countS b := by
  simp [countS, List.filter_append]

lemma countH_append (a b : List Event) : countH (a ++ b) = countH a + countH b := by
  simp [countH, List.filter_append]

/-- Helper: the counters on a block of prompt events. -/
lemma countP_replicate (n : Nat) :
    countP (List.replicate n Event.promptCall) = n := by
  induction n with
  | zero => rfl
  | succ m ih => simp [countP, List.replicate_succ, List.filter_cons] at ih ⊢

lemma countS_replicate (n : Nat) :
    countS (List.replicate n Event.promptCall) = 0 := by
  induction n with
  | zero => rfl
  | succ m _ => simp [countS, List.replicate_succ, List.filter_cons]

lemma countH_replicate (n : Nat) :
    countH (List.replicate n Event.promptCall) = 0 := by
  induction n with
  | zero => rfl
  | succ m _ => simp [countH, List.replicate_succ, List.filter_cons]

/-- Helper: the counters on the write section of a run. -/
lemma counts_writesBlock (resp : Nat → Option String) :
    ∀ n i, countP (writesBlock resp i n) = 0 ∧
      countS (writesBlock resp i n) = n + 1 ∧
      countH (writesBlock resp i n) = n + 1 := by
  intro n
  induction n with
  | zero =>
    intro i
    refine ⟨rfl, rfl, rfl⟩
  | succ m ih =>
    intro i
    obtain ⟨hp, hs, hh⟩ := ih (i + 1)
    refine ⟨?_, ?_, ?_⟩
    · rw [writesBlock, countP_append, hp]; rfl
    · rw [writesBlock, countS_append, hs]; rfl
    · rw [writesBlock, countH_append, hh]; rfl

/-- Helper: every terminating run of setUserName has the canonical
shape of n+1 prompts followed by the write section of n+1 frames. -/
lemma setUserName_shape (resp : Nat → Option String) :
    ∀ fuel i j evs, setUserName resp fuel i = some (j, evs) →
      ∃ n, j = i + n + 1 ∧
        evs = List.replicate (n + 1) Event.promptCall ++ writesBlock resp i n := by
  intro fuel
  induction fuel with
  | zero =>
    intro i j evs h
    exact absurd h (by rw [setUserName_zero]; exact Option.noConfusion)
  | succ f ih =>
    intro i j evs h
    rw [setUserName_succ] at h
    by_cases hf : falsy (resp i) = true
    · rw [hf, if_pos rfl] at h
      cases hrec : setUserName resp f (i + 1) with
      | none => rw [hrec] at h; exact absurd h Option.noConfusion
      | some p =>
        obtain ⟨j', evs'⟩ := p
        rw [hrec] at h
        obtain ⟨n, hj, hevs⟩ := ih (i + 1) j' evs' hrec
        injection h with h
        injection h with h1 h2
        refine ⟨n + 1, by omega, ?_⟩
        rw [← h2, hevs, writesBlock]
        simp [List.replicate_succ, List.append_assoc]
    · rw [eq_false_of_ne_true hf, if_neg (by simp)] at h
      injection h with h
      injection h with h1 h2
      refine ⟨0, by omega, ?_⟩
      rw [← h2]
      simp [writesBlock]

/-- C3: setUserName retries without bound or escape: when the first
non-falsy response sits at position k, any sufficiently large fuel
yields a completed run of exactly k+1 prompt invocations, and when
every response is falsy or declined no fuel amount completes the run. -/
theorem setUserName_unbounded_retry (resp : Nat → Option String) (k : Nat)
    (hk : ∀ j, j < k → falsy (resp j) = true) (hnk : falsy (resp k) = false) :
    (∀ fuel, k + 1 ≤ fuel →
      ∃ evs, setUserName resp fuel 0 = some (k + 1, evs) ∧ countP evs = k + 1) ∧
    ∀ resp2 : Nat → Option String, (∀ j, falsy (resp2 j) = true) →
      ∀ fuel, setUserName resp2 fuel 0 = none := by
  constructor
  · intro fuel hf
    have run := setUserName_run resp k 0 fuel
      (by intro j hj; rw [Nat.zero_add]; exact hk j hj)
      (by rw [Nat.zero_add]; exact hnk) hf
    rw [Nat.zero_add] at run
    refine ⟨_, run, ?_⟩
    rw [countP_append, countP_replicate, (counts_writesBlock resp k 0).1]
  · intro resp2 h2 fuel
    exact setUserName_all_falsy resp2 h2 fuel 0

/-- Witness for C3 at the concrete response stream whose first two
responses are empty and whose third is nonempty. -/
theorem setUserName_unbounded_retry_witness :
    ∃ evs, setUserName (fun i => if i < 2 then some "" else some "Zed") 3 0 =
      some (3, evs) ∧ countP evs = 3 :=
  (setUserName_unbounded_retry (fun i => if i < 2 then some "" else some "Zed") 2
    (by intro j hj; interval_cases j <;> rfl) rfl).1 3 (by omega)

/-- C10: every terminating run of setUserName writes the store once per
prompt invocation and the heading once per prompt invocation, and the
trace shape shows the writes happen after the recursive call returns:
the innermost frame writes first and the outermost frame writes last. -/
theorem setUserName_write_per_prompt (resp : Nat → Option String)
    (fuel i j : Nat) (evs : List Event)
    (h : setUserName resp fuel i = some (j, evs)) :
    countS evs = countP evs ∧ countH evs = countP evs ∧
    ∃ n, countP evs = n + 1 ∧ j = i + n + 1 ∧
      evs = List.replicate (n + 1) Event.promptCall ++ writesBlock resp i n := by
  obtain ⟨n, hj, hevs⟩ := setUserName_shape resp fuel i j evs h
  obtain ⟨hp, hs, hh⟩ := counts_writesBlock resp n i
  have hcp : countP evs = n + 1 := by
    rw [hevs, countP_append, countP_replicate, hp]
  refine ⟨?_, ?_, n, hcp, hj, hevs⟩
  · rw [hcp, hevs, countS_append, countS_replicate, hs, Nat.zero_add]
  · rw [hcp, hevs, countH_append, countH_replicate, hh, Nat.zero_add]

/-- Witness for C10 at a concrete completed run of two prompts. -/
theorem setUserName_write_per_prompt_witness :
    countS [Event.promptCall, Event.promptCall, Event.storeWrite "Ana",
        Event.headingWrite "Welcome, Ana!", Event.storeWrite "",
        Event.headingWrite "Welcome, !"] =
      countP [Event.promptCall, Event.promptCall, Event.storeWrite "Ana",
        Event.headingWrite "Welcome, Ana!", Event.storeWrite "",
        Event.headingWrite "Welcome, !"] ∧
    countH [Event.promptCall, Event.promptCall, Event.storeWrite "Ana",
        Event.headingWrite "Welcome, Ana!", Event.storeWrite "",
        Event.headingWrite "Welcome, !"] =
      countP [Event.promptCall, Event.promptCall, Event.storeWrite "Ana",
        Event.headingWrite "Welcome, Ana!", Event.storeWrite "",
        Event.headingWrite "Welcome, !"] ∧
    ∃ n, countP [Event.promptCall, Event.promptCall, Event.storeWrite "Ana",
        Event.headingWrite "Welcome, Ana!", Event.storeWrite "",
        Event.headingWrite "Welcome, !"] = n + 1 ∧ (2 : Nat) = 0 + n + 1 ∧
      [Event.promptCall, Event.promptCall, Event.storeWrite "Ana",
        Event.headingWrite "Welcome, Ana!", Event.storeWrite "",
        Event.headingWrite "Welcome, !"] =
        List.replicate (n + 1) Event.promptCall ++
          writesBlock (fun i => if i = 0 then some "" else some "Ana") 0 n :=
  setUserName_write_per_prompt (fun i => if i = 0 then some "" else some "Ana")
    2 0 2
    [Event.promptCall, Event.promptCall, Event.storeWrite "Ana",
      Event.headingWrite "Welcome, Ana!", Event.storeWrite "",
      Event.headingWrite "Welcome, !"] rfl

/-- Helper: one click always lands on one of the two known URLs. -/
lemma imageClick_mem (src : String) :
    imageClick src = defaultSrc ∨ imageClick src = alternateSrc := by
  unfold imageClick
  by_cases h : src = defaultSrc
  · exact Or.inr (if_pos h)
  · exact Or.inl (if_neg h)

/-- C7: starting from a source equal to the default value, one click on
the image yields the alternate value and a second click restores the
default value. -/
theorem imageClick_toggle_round_trip (src : String) (h : src = defaultSrc) :
    imageClick src = alternateSrc ∧ imageClick (imageClick src) = defaultSrc := by
  subst h
  have h1 : imageClick defaultSrc = alternateSrc := by
    unfold imageClick
    exact if_pos rfl
  refine ⟨h1, ?_⟩
  rw [h1]
  unfold imageClick
  have hne : alternateSrc ≠ defaultSrc := by decide
  exact if_neg hne

/-- Witness for C7 at the concrete default source string. -/
theorem imageClick_toggle_round_trip_witness :
    imageClick defaultSrc = alternateSrc ∧
      imageClick (imageClick defaultSrc) = defaultSrc :=
  imageClick_toggle_round_trip defaultSrc rfl

/-- C8: from any current source not string-equal to the default value,
including the alternate value and arbitrary strings, one click sets the
source to the default value. -/
theorem imageClick_nondefault_to_default (src : String) (h : src ≠ defaultSrc) :
    imageClick src = defaultSrc := by
  unfold imageClick
  exact if_neg h

/-- Witness for C8 at the concrete alternate source string. -/
theorem imageClick_nondefault_to_default_witness :
    imageClick alternateSrc = defaultSrc :=
  imageClick_nondefault_to_default alternateSrc (by decide)

/-- C9: after at least one click the image source is one of the two
known URLs, and any further click keeps it in that two-element set. -/
theorem imageClicks_two_urls (src : String) (n : Nat) (h : 1 ≤ n) :
    (imageClicks n src = defaultSrc ∨ imageClicks n src = alternateSrc) ∧
      ∀ s : String, (s = defaultSrc ∨ s = alternateSrc) →
        (imageClick s = defaultSrc ∨ imageClick s = alternateSrc) := by
  constructor
  · obtain ⟨m, rfl⟩ : ∃ m, n = m + 1 := ⟨n - 1, (Nat.succ_pred_eq_of_pos h).symm⟩
    exact imageClick_mem (imageClicks m src)
  · intro s _
    exact imageClick_mem s

/-- Witness for C9 at a concrete arbitrary starting source and one
click. -/
theorem imageClicks_two_urls_witness :
    (imageClicks 1 "broken.png" = defaultSrc ∨
        imageClicks 1 "broken.png" = alternateSrc) ∧
      ∀ s : String, (s = defaultSrc ∨ s = alternateSrc) →
        (imageClick s = defaultSrc ∨ imageClick s = alternateSrc) :=
  imageClicks_two_urls "broken.png" 1 (by decide)

/-- C1 counter-evidence: driving setUserName with the responses "", "",
"Jo" makes exactly three prompt invocations, but because the store write
sits after the if/else, every frame writes on the way out and the
outermost frame, whose response was the empty string, writes last: the
final stored value is "" and the final heading is "Welcome, !", not
"Jo" and "Welcome, Jo!". -/
theorem setUserName_retry_stores_empty_last :
    setUserName (fun i => if i < 2 then some "" else some "Jo") 3 0 =
      some (3,
        [Event.promptCall, Event.promptCall, Event.promptCall,
         Event.storeWrite "Jo", Event.headingWrite "Welcome, Jo!",
         Event.storeWrite "", Event.headingWrite "Welcome, !",
         Event.storeWrite "", Event.headingWrite "Welcome, !"]) ∧
    countP [Event.promptCall, Event.promptCall, Event.promptCall,
         Event.storeWrite "Jo", Event.headingWrite "Welcome, Jo!",
         Event.storeWrite "", Event.headingWrite "Welcome, !",
         Event.storeWrite "", Event.headingWrite "Welcome, !"] = 3 ∧
    (applyEvents ⟨none, "init"⟩
        [Event.promptCall, Event.promptCall, Event.promptCall,
         Event.storeWrite "Jo", Event.headingWrite "Welcome, Jo!",
         Event.storeWrite "", Event.headingWrite "Welcome, !",
         Event.storeWrite "", Event.headingWrite "Welcome, !"]).store =
      some "" := ⟨rfl, rfl, rfl⟩

/-- C2 counter-evidence: page-load initialization on an empty store with
the responses "", "Jo" completes with the heading written twice with two
different values — first the stale "Welcome, Jo!" of the inner frame,
then "Welcome, !" of the outer frame — so the greeting surface is not
written with its final value exactly once. -/
theorem pageLoad_duplicate_heading_renders :
    pageLoad ⟨none, "init"⟩ (fun i => if i = 0 then some "" else some "Jo") 2 =
      some (⟨some "", "Welcome, !"⟩,
        [Event.promptCall, Event.promptCall,
         Event.storeWrite "Jo", Event.headingWrite "Welcome, Jo!",
         Event.storeWrite "", Event.headingWrite "Welcome, !"]) ∧
    headingWrites
        [Event.promptCall, Event.promptCall,
         Event.storeWrite "Jo", Event.headingWrite "Welcome, Jo!",
         Event.storeWrite "", Event.headingWrite "Welcome, !"] =
      ["Welcome, Jo!", "Welcome, !"] ∧
    ("Welcome, Jo!" : String) ≠ "Welcome, !" := ⟨rfl, rfl, by decide⟩

/-- C2 amended: in every run of page-load initialization that completes,
the final heading text equals the greeting template applied to the value
then stored under the key "name", and the trace ends with a heading
write of that final value; in the stored-value path and in prompting
runs whose first response is truthy the heading is written exactly
once. -/
theorem pageLoad_final_heading_matches_store (st0 : PageState)
    (resp : Nat → Option String) (fuel : Nat) (st : PageState)
    (evs : List Event) (h : pageLoad st0 resp fuel = some (st, evs)) :
    st.heading = greet (jsToString st.store) ∧
    (falsy st0.store = false → countH evs = 1) ∧
    (falsy st0.store = true → falsy (resp 0) = false → 1 ≤ fuel → countH evs = 1) := by
  unfold pageLoad at h
  by_cases h0 : falsy st0.store = true
  · rw [h0, if_pos rfl] at h
    cases hrun : setUserName resp fuel 0 with
    | none => rw [hrun] at h; exact absurd h Option.noConfusion
    | some p =>
      obtain ⟨j, evs'⟩ := p
      rw [hrun] at h
      injection h with h
      injection h with h1 h2
      obtain ⟨n, hj, hevs⟩ := setUserName_shape resp fuel 0 j evs' hrun
      subst h2
      refine ⟨?_, ?_, ?_⟩
      · rw [← h1, hevs]
        clear h1 hevs hrun hj
        induction n generalizing st0 with
        | zero =>
          simp [applyEvents, applyEvent, writesBlock, writeEvents,
            List.replicate, jsToString]
        | succ m ih =>
          rw [writesBlock]
          have hsplit :
              List.replicate (m + 1 + 1) Event.promptCall ++
                (writesBlock resp (0 + 1) m ++ writeEvents (resp 0)) =
              (Event.promptCall ::
                (List.replicate (m + 1) Event.promptCall ++
                  writesBlock resp (0 + 1) m)) ++ writeEvents (resp 0) := by
            simp [List.replicate_succ, List.append_assoc]
          rw [hsplit]
          unfold applyEvents
          rw [List.foldl_append]
          simp [applyEvent, writeEvents, jsToString]
      · intro hfalse; rw [h0] at hfalse; exact absurd hfalse (by simp)
      · intro _ hr hfuel
        obtain ⟨f, rfl⟩ : ∃ f, fuel = f + 1 :=
          ⟨fuel - 1, (Nat.succ_pred_eq_of_pos hfuel).symm⟩
        rw [setUserName_succ, hr, if_neg (by simp)] at hrun
        injection hrun with hrun
        injection hrun with hrun1 hrun2
        rw [← hrun2]
        rfl
  · rw [eq_false_of_ne_true h0, if_neg (by simp)] at h
    injection h with h
    injection h with h1 h2
    subst h2
    refine ⟨?_, fun _ => rfl, ?_⟩
    · rw [← h1]
      simp [applyEvents, applyEvent, jsToString, greet]
    · intro hfalse
      rw [hfalse] at h0
      exact absurd rfl h0

/-- Witness for the amended C2 at the stored-value path on the store
holding "Pat". -/
theorem pageLoad_final_heading_matches_store_witness :
    (PageState.mk (some "Pat") "Welcome, Pat!").heading =
      greet (jsToString (PageState.mk (some "Pat") "Welcome, Pat!").store) ∧
    (falsy (PageState.mk (some "Pat") "init").store = false →
      countH [Event.headingWrite "Welcome, Pat!"] = 1) ∧
    (falsy (PageState.mk (some "Pat") "init").store = true →
      falsy ((fun _ : Nat => some "Pat") 0) = false → 1 ≤ 1 →
      countH [Event.headingWrite "Welcome, Pat!"] = 1) :=
  pageLoad_final_heading_matches_store ⟨some "Pat", "init"⟩
    (fun _ => some "Pat") 1 ⟨some "Pat", "Welcome, Pat!"⟩
    [Event.headingWrite "Welcome, Pat!"] rfl

/-- C4: from an empty store, with the prompt answering "Alex" first,
page-load initialization completes with "Alex" stored under the key
"name" and the heading equal to "Welcome, Alex!". -/
theorem pageLoad_fresh_prompt_alex (h0 : String) (resp : Nat → Option String)
    (hr : resp 0 = some "Alex") (fuel : Nat) (hf : 1 ≤ fuel) :
    pageLoad ⟨none, h0⟩ resp fuel =
      some (⟨some "Alex", "Welcome, Alex!"⟩,
        [Event.promptCall, Event.storeWrite "Alex",
         Event.headingWrite "Welcome, Alex!"]) := by
  obtain ⟨f, rfl⟩ : ∃ f, fuel = f + 1 :=
    ⟨fuel - 1, (Nat.succ_pred_eq_of_pos hf).symm⟩
  unfold pageLoad
  rw [if_pos (by rfl), setUserName_succ, hr]
  simp [falsy, writeEvents, jsToString, greet, applyEvents, applyEvent]

/-- Witness for C4 at the constant response stream answering "Alex". -/
theorem pageLoad_fresh_prompt_alex_witness :
    pageLoad ⟨none, "init"⟩ (fun _ => some "Alex") 1 =
      some (⟨some "Alex", "Welcome, Alex!"⟩,
        [Event.promptCall, Event.storeWrite "Alex",
         Event.headingWrite "Welcome, Alex!"]) :=
  pageLoad_fresh_prompt_alex "init" (fun _ => some "Alex") rfl 1 (by omega)

/-- C5: with "Sam" already stored, page-load initialization writes the
heading to "Welcome, Sam!" with zero prompt invocations and zero store
writes: the store is read, never written, and keeps its value. -/
theorem pageLoad_stored_sam (h0 : String) (resp : Nat → Option String)
    (fuel : Nat) :
    pageLoad ⟨some "Sam", h0⟩ resp fuel =
      some (⟨some "Sam", "Welcome, Sam!"⟩,
        [Event.headingWrite "Welcome, Sam!"]) ∧
    countP [Event.headingWrite "Welcome, Sam!"] = 0 ∧
    countS [Event.headingWrite "Welcome, Sam!"] = 0 := by
  refine ⟨?_, rfl, rfl⟩
  unfold pageLoad
  rw [if_neg (by simp [falsy])]
  simp [applyEvents, applyEvent, jsToString, greet]

/-- C6: with "Sam" already stored, activating the button while the
prompt answers "Lee" re-prompts and overwrites: the run completes with
"Lee" stored under the key "name" and the heading equal to
"Welcome, Lee!". -/
theorem buttonClick_overwrites_stored_name (h0 : String)
    (resp : Nat → Option String) (hr : resp 0 = some "Lee") (fuel : Nat)
    (hf : 1 ≤ fuel) :
    buttonClick ⟨some "Sam", h0⟩ resp fuel =
      some (⟨some "Lee", "Welcome, Lee!"⟩,
        [Event.promptCall, Event.storeWrite "Lee",
         Event.headingWrite "Welcome, Lee!"]) := by
  obtain ⟨f, rfl⟩ : ∃ f, fuel = f + 1 :=
    ⟨fuel - 1, (Nat.succ_pred_eq_of_pos hf).symm⟩
  unfold buttonClick
  rw [setUserName_succ, hr]
  simp [falsy, writeEvents, jsToString, greet, applyEvents, applyEvent]

/-- Witness for C6 at the constant response stream answering "Lee". -/
theorem buttonClick_overwrites_stored_name_witness :
    buttonClick ⟨some "Sam", "Welcome, Sam!"⟩ (fun _ => some "Lee") 1 =
      some (⟨some "Lee", "Welcome, Lee!"⟩,
        [Event.promptCall, Event.storeWrite "Lee",
         Event.headingWrite "Welcome, Lee!"]) :=
  buttonClick_overwrites_stored_name "Welcome, Sam!" (fun _ => some "Lee")
    rfl 1 (by omega)

end MainJs
